import Mathlib

/-!
Verification of the result-tracking persistence layer of the mcp_qa database
(src/saaga_rules/mcp_servers/development/mcp_qa/db/): a shallow embedding of
db_manager.py, repository.py and the crud/ modules, followed by theorems about
the embedded operations.

Modelling conventions, applied uniformly:
* each SQLite table is a list of row records in rowid order; INSERT appends,
  and a per-table counter models the fresh rowid returned as lastrowid
  (sqlite allocates max(rowid)+1, which is likewise fresh with respect to
  every row present at insert time);
* timestamps (format_datetime in db_manager.py) are an abstract clock value
  of type Nat supplied by the caller as the argument now;
* JSON payloads (pytest_summary, the result field) are kept in their
  serialized string form; json.dumps/json.loads only reshape in-memory
  copies and never affect which rows are stored or returned;
* logging calls are ignored;
* a possible storage-layer failure (e.g. a constraint violation raised by an
  INSERT or a SELECT) is injected through an explicit failAt / fail
  parameter; with failAt = none (or fail = false) the run is failure-free,
  which is the behaviour the Python code exhibits when the driver does not
  raise.
-/

/-- Row of the source_files table: id, file_path, file_hash, created_at,
updated_at (see crud/source_files.py). -/
structure SourceFileRow where
  id : Nat
  file_path : String
  file_hash : String
  created_at : Nat
  updated_at : Nat
deriving DecidableEq

/-- Row of the pytest_files table: id, file_path, source_file_id (nullable),
pytest_summary, created_at, updated_at (see crud/pytest_files.py). -/
structure PytestFileRow where
  id : Nat
  file_path : String
  source_file_id : Option Nat
  pytest_summary : String
  created_at : Nat
  updated_at : Nat
deriving DecidableEq

/-- Row of the pytest_errors table: id, node_id, test_file_id, outcome,
error_type, result, longrepr, created_at (see crud/pytest_errors.py). -/
structure PytestErrorRow where
  id : Nat
  node_id : String
  test_file_id : Nat
  outcome : String
  error_type : String
  result : String
  longrepr : String
  created_at : Nat
deriving DecidableEq

/-- Row of the coverage_issues table: id, file_path, source_file_id
(nullable), line_number, is_excluded, created_at (see
crud/coverage_issues.py). -/
structure CoverageIssueRow where
  id : Nat
  file_path : String
  source_file_id : Option Nat
  line_number : Int
  is_excluded : Bool
  created_at : Nat
deriving DecidableEq

/-- Row of the coverage_branches table: id, coverage_issue_id, source_line,
end_line, condition, branch_type, created_at (see
crud/coverage_branches.py). -/
structure CoverageBranchRow where
  id : Nat
  coverage_issue_id : Nat
  source_line : Int
  end_line : Int
  condition : String
  branch_type : String
  created_at : Nat
deriving DecidableEq

/-- State of the mcp_qa database: the five tables touched by the claims,
each as a list of rows in rowid order, together with the next fresh rowid
per table. -/
structure DB where
  source_files : List SourceFileRow
  pytest_files : List PytestFileRow
  pytest_errors : List PytestErrorRow
  coverage_issues : List CoverageIssueRow
  coverage_branches : List CoverageBranchRow
  nextSourceFileId : Nat
  nextPytestFileId : Nat
  nextPytestErrorId : Nat
  nextCoverageIssueId : Nat
  nextCoverageBranchId : Nat
deriving DecidableEq

/-- Shallow embedding of get_cursor (db_manager.py lines 91-115) over the
connection created by get_connection (lines 24-75). get_connection is called
with isolation_level = None (lines 27 and 75), which puts the sqlite3
connection in autocommit mode: transactions are never implicitly opened, every
statement takes effect as soon as it executes, and the conn.commit() on normal
exit and the conn.rollback() on exception are both no-ops. The body therefore
runs against the live state, the state it reached is kept whether it returns
normally or raises, and an exception is re-raised to the caller. -/
def get_cursor {α : Type} (body : DB → Except Unit α × DB) (db : DB) :
    Except Unit α × DB :=
  body db

/-- One element of the test_errors argument of save_test_results_to_db: a
dictionary read with error.get, so every key may be absent (repository.py
lines 96-101). The result value is kept in its json.dumps form. -/
structure PyTestErrorInput where
  node_id : Option String
  outcome : Option String
  result : Option String
  longrepr : Option String
deriving DecidableEq

/-- One element of a nested branches list inside a coverage issue dictionary,
read with branch.get (repository.py lines 193-199). -/
structure CoverageInputBranch where
  source_line : Option Int
  end_line : Option Int
  condition : Option String
  branch_type : Option String
deriving DecidableEq

/-- One element of the coverage_issues argument of save_coverage_issues_to_db:
a dictionary whose keys may be absent. type drives the partition (lines
149-158); line_number / is_excluded / branches are read for line-level
entries, source_line / end_line / condition / branch_type for branch-level
entries, and parent_issue_id only has its presence tested (line 206). -/
structure CoverageInput where
  type : Option String
  line_number : Option Int
  is_excluded : Option Bool
  branches : Option (List CoverageInputBranch)
  source_line : Option Int
  end_line : Option Int
  condition : Option String
  branch_type : Option String
  parent_issue_id : Option Int
deriving DecidableEq

/-- INSERT INTO pytest_files (file_path, pytest_summary, created_at,
updated_at) VALUES (?,?,?,?) (repository.py lines 66-74); source_file_id is
not in the column list and is stored as NULL. The fresh id is sqlite's
lastrowid, modelled by the nextPytestFileId counter. -/
def insertPytestFileRow (path summary : String) (now : Nat) (db : DB) : DB :=
  { db with
    pytest_files := db.pytest_files ++
      [{ id := db.nextPytestFileId, file_path := path, source_file_id := none,
         pytest_summary := summary, created_at := now, updated_at := now }],
    nextPytestFileId := db.nextPytestFileId + 1 }

/-- UPDATE pytest_files SET pytest_summary = ?, updated_at = ? WHERE id = ?
(repository.py lines 77-80). -/
def updatePytestSummary (tfId : Nat) (summary : String) (now : Nat) (db : DB) : DB :=
  { db with
    pytest_files := db.pytest_files.map fun r =>
      if r.id == tfId then { r with pytest_summary := summary, updated_at := now }
      else r }

/-- DELETE FROM pytest_errors WHERE test_file_id = ? (repository.py
lines 83-85). -/
def deletePytestErrorsByTestFileId (tfId : Nat) (db : DB) : DB :=
  { db with pytest_errors := db.pytest_errors.filter fun r => !(r.test_file_id == tfId) }

/-- One INSERT INTO pytest_errors row (repository.py lines 89-104): the
fields come from error.get with the defaults of lines 96-101, error_type is
the constant ERROR_TYPE_TEST = "PyTestError" (line 30), and the result field
is stored in its serialized form (default json.dumps of the empty list). -/
def insertPytestErrorRow (tfId now : Nat) (e : PyTestErrorInput) (db : DB) : DB :=
  { db with
    pytest_errors := db.pytest_errors ++
      [{ id := db.nextPytestErrorId, node_id := e.node_id.getD "",
         test_file_id := tfId, outcome := e.outcome.getD "failed",
         error_type := "PyTestError", result := e.result.getD "[]",
         longrepr := e.longrepr.getD "", created_at := now }],
    nextPytestErrorId := db.nextPytestErrorId + 1 }

/-- For-loop over test_errors (repository.py lines 88-104) inserting one
pytest_errors row per element. k counts the child INSERTs executed so far and
failAt injects a storage failure raised by the k-th INSERT; the failing
INSERT writes nothing itself and the raised exception stops the loop. -/
def insertTestErrors (tfId now : Nat) (failAt : Option Nat) :
    Nat → List PyTestErrorInput → DB → Except Unit Unit × DB
  | _, [], db => (.ok (), db)
  | k, e :: rest, db =>
    if failAt = some k then (.error (), db)
    else insertTestErrors tfId now failAt (k + 1) rest (insertPytestErrorRow tfId now e db)

/-- Shallow embedding of save_test_results_to_db (repository.py lines
33-106): SELECT the pytest_files row by file_path (fetchone over rowid
order), INSERT it when absent, UPDATE its summary and updated_at, DELETE all
pytest_errors rows for its id, then INSERT one fresh row per supplied error.
The collection_errors parameter of the source is ignored there (line 46) and
is omitted; summary holds the json.dumps image of summary_data. -/
def save_test_results_to_db (path summary : String)
    (test_errors : List PyTestErrorInput) (now : Nat) (failAt : Option Nat)
    (db : DB) : Except Unit Unit × DB :=
  get_cursor (fun db0 =>
    let found := db0.pytest_files.find? fun r => r.file_path == path
    let tfId := match found with
      | some r => r.id
      | none => db0.nextPytestFileId
    let db1 := match found with
      | some _ => db0
      | none => insertPytestFileRow path summary now db0
    let db2 := updatePytestSummary tfId summary now db1
    let db3 := deletePytestErrorsByTestFileId tfId db2
    insertTestErrors tfId now failAt 0 test_errors db3) db

/-- INSERT INTO source_files (file_path, file_hash, created_at, updated_at)
VALUES (?,?,?,?) (repository.py lines 138-145 and 590-597,
crud/source_files.py lines 27-35). -/
def insertSourceFileRow (path hash : String) (now : Nat) (db : DB) : DB :=
  { db with
    source_files := db.source_files ++
      [{ id := db.nextSourceFileId, file_path := path, file_hash := hash,
         created_at := now, updated_at := now }],
    nextSourceFileId := db.nextSourceFileId + 1 }

/-- Get-or-create of the SourceFile record shared by
save_coverage_issues_to_db (repository.py lines 123-146): SELECT id FROM
source_files WHERE file_path = ?, inserting a row with empty file_hash when
absent; returns the id together with the resulting state. -/
def upsertSourceFile (path : String) (now : Nat) (db : DB) : Nat × DB :=
  match db.source_files.find? (fun r => r.file_path == path) with
  | some r => (r.id, db)
  | none => (db.nextSourceFileId, insertSourceFileRow path "" now db)

/-- DELETE FROM coverage_issues for every row satisfying pred. Modelled from
the spec: schema.sql is not under src/ (db/schema/ only holds the loader);
per spec section 3 ("CoverageBranch ... cascades on delete") and the source
comment at repository.py line 164 ("Cascade will delete related branches due
to foreign key constraint", with PRAGMA foreign_keys = ON set in
db_manager.py line 60), deleting coverage_issues rows also deletes every
coverage_branches row whose coverage_issue_id references a deleted row. -/
def deleteCoverageIssuesWhere (pred : CoverageIssueRow → Bool) (db : DB) : DB :=
  let deletedIds := (db.coverage_issues.filter pred).map fun r => r.id
  { db with
    coverage_issues := db.coverage_issues.filter fun r => !(pred r),
    coverage_branches :=
      db.coverage_branches.filter fun b => !(deletedIds.contains b.coverage_issue_id) }

/-- Shallow embedding of delete_coverage_issue (crud/coverage_issues.py lines
145-157): DELETE FROM coverage_issues WHERE id = ?, returning rowcount > 0;
the branch rows follow by the cascade (see deleteCoverageIssuesWhere). -/
def delete_coverage_issue (issue_id : Nat) (db : DB) : Bool × DB :=
  (db.coverage_issues.any (fun r => r.id == issue_id),
   deleteCoverageIssuesWhere (fun r => r.id == issue_id) db)

/-- INSERT INTO coverage_issues (file_path, source_file_id, line_number,
is_excluded, created_at) VALUES (?,?,?,?,?) (repository.py lines 168-181 and
207-220). -/
def insertCoverageIssueRow (path : String) (sfId : Nat) (line : Int)
    (excl : Bool) (now : Nat) (db : DB) : DB :=
  { db with
    coverage_issues := db.coverage_issues ++
      [{ id := db.nextCoverageIssueId, file_path := path,
         source_file_id := some sfId, line_number := line,
         is_excluded := excl, created_at := now }],
    nextCoverageIssueId := db.nextCoverageIssueId + 1 }

/-- INSERT INTO coverage_branches (coverage_issue_id, source_line, end_line,
condition, branch_type, created_at) VALUES (?,?,?,?,?,?) (repository.py
lines 187-201 and 223-237). -/
def insertCoverageBranchRow (parentId : Nat) (sl el : Int) (cond bty : String)
    (now : Nat) (db : DB) : DB :=
  { db with
    coverage_branches := db.coverage_branches ++
      [{ id := db.nextCoverageBranchId, coverage_issue_id := parentId,
         source_line := sl, end_line := el, condition := cond,
         branch_type := bty, created_at := now }],
    nextCoverageBranchId := db.nextCoverageBranchId + 1 }

/-- Inner for-loop over issue["branches"] (repository.py lines 186-201),
inserting one coverage_branches row per element under parentId. k counts
child INSERTs executed so far; failAt injects a storage failure at the k-th
one. -/
def insertBranchList (parentId : Nat) (now : Nat) (failAt : Option Nat) :
    Nat → List CoverageInputBranch → DB → Except Unit Unit × DB × Nat
  | k, [], db => (.ok (), db, k)
  | k, b :: rest, db =>
    if failAt = some k then (.error (), db, k)
    else insertBranchList parentId now failAt (k + 1) rest
      (insertCoverageBranchRow parentId (b.source_line.getD 0) (b.end_line.getD 0)
        (b.condition.getD "") (b.branch_type.getD "") now db)

/-- For-loop over line_issues (repository.py lines 167-201): INSERT one
coverage_issues row per line-level entry (capturing lastrowid), then, when
the entry carries a branches key with a non-empty list (truthiness test of
line 185), INSERT its branch children under that id. -/
def insertLineIssues (path : String) (sfId now : Nat) (failAt : Option Nat) :
    Nat → List CoverageInput → DB → Except Unit Unit × DB × Nat
  | k, [], db => (.ok (), db, k)
  | k, i :: rest, db =>
    if failAt = some k then (.error (), db, k)
    else
      let parentId := db.nextCoverageIssueId
      let db1 := insertCoverageIssueRow path sfId (i.line_number.getD 0)
        (i.is_excluded.getD false) now db
      let step : Except Unit Unit × DB × Nat := match i.branches with
        | none => (.ok (), db1, k + 1)
        | some bs =>
          if bs.isEmpty then (.ok (), db1, k + 1)
          else insertBranchList parentId now failAt (k + 1) bs db1
      match step with
      | (.ok _, db2, k2) => insertLineIssues path sfId now failAt k2 rest db2
      | (.error e, db2, k2) => (.error e, db2, k2)

/-- For-loop over branch_issues (repository.py lines 204-237): entries
carrying a parent_issue_id key are skipped (line 206); every other entry gets
a fresh parent coverage_issues row (line_number taken from source_line,
is_excluded False, lines 207-220) followed by one coverage_branches row under
its id (lines 223-237). -/
def insertStandaloneBranches (path : String) (sfId now : Nat) (failAt : Option Nat) :
    Nat → List CoverageInput → DB → Except Unit Unit × DB × Nat
  | k, [], db => (.ok (), db, k)
  | k, b :: rest, db =>
    if b.parent_issue_id.isSome then insertStandaloneBranches path sfId now failAt k rest db
    else if failAt = some k then (.error (), db, k)
    else
      let parentId := db.nextCoverageIssueId
      let db1 := insertCoverageIssueRow path sfId (b.source_line.getD 0) false now db
      if failAt = some (k + 1) then (.error (), db1, k + 1)
      else
        let db2 := insertCoverageBranchRow parentId (b.source_line.getD 0)
          (b.end_line.getD 0) (b.condition.getD "") (b.branch_type.getD "") now db1
        insertStandaloneBranches path sfId now failAt (k + 2) rest db2

/-- Partition of the incoming list: entries whose type value is
"CoverageIssue" (repository.py lines 149-153). -/
def line_issues (issues : List CoverageInput) : List CoverageInput :=
  issues.filter fun i => i.type.getD "" == "CoverageIssue"

/-- Partition of the incoming list: entries whose type value is
"CoverageBranch" (repository.py lines 154-158). -/
def branch_issues (issues : List CoverageInput) : List CoverageInput :=
  issues.filter fun i => i.type.getD "" == "CoverageBranch"

/-- Shallow embedding of save_coverage_issues_to_db (repository.py lines
109-243): get-or-create the SourceFile record, partition the incoming list on
the type key, DELETE FROM coverage_issues WHERE file_path = ? (cascading to
branches), insert the line-level issues with their nested branches, then the
standalone branch-level entries. failAt injects a storage failure at the k-th
child INSERT counted across both loops. -/
def save_coverage_issues_to_db (path : String) (issues : List CoverageInput)
    (now : Nat) (failAt : Option Nat) (db : DB) : Except Unit Unit × DB :=
  get_cursor (fun db0 =>
    let p := upsertSourceFile path now db0
    let db1 := deleteCoverageIssuesWhere (fun r => r.file_path == path) p.2
    match insertLineIssues path p.1 now failAt 0 (line_issues issues) db1 with
    | (.ok _, db2, k2) =>
      match insertStandaloneBranches path p.1 now failAt k2 (branch_issues issues) db2 with
      | (.ok _, db3, _) => (.ok (), db3)
      | (.error e, db3, _) => (.error e, db3)
    | (.error e, db2, _) => (.error e, db2)) db

/-- Rows of pytest_errors with the given test_file_id, in table order: the
candidate set of the WHERE test_file_id = ? queries. -/
def errorsForTestFile (tfId : Nat) (db : DB) : List PytestErrorRow :=
  db.pytest_errors.filter fun r => r.test_file_id == tfId

/-- The row ORDER BY id LIMIT 1 selects: the row with the least id, as a
fold over the table; ties keep the earlier row (ids are unique rowids in
sqlite, so ties do not arise there). -/
def minByIdErr : List PytestErrorRow → Option PytestErrorRow
  | [] => none
  | r :: rs =>
    match minByIdErr rs with
    | none => some r
    | some m => if r.id ≤ m.id then some r else some m

/-- Shallow embedding of get_next_pytest_error (repository.py lines 360-407):
SELECT * FROM pytest_errors WHERE test_file_id = ? ORDER BY id LIMIT 1, with
the id taken from the supplied test_file dictionary. The query is read-only;
the in-memory json.loads of the result field (line 401) only reshapes the
returned copy and is not modelled — the stored row is returned. -/
def get_next_pytest_error (tfId : Nat) (db : DB) : Option PytestErrorRow :=
  minByIdErr (errorsForTestFile tfId db)

/-- Shallow embedding of delete_pytest_error (repository.py lines 410-434):
DELETE FROM pytest_errors WHERE node_id = ?, returning the number of rows
removed. The explicit cursor.connection.commit() on line 432 is a no-op on
the autocommit connection. -/
def delete_pytest_error (nid : String) (db : DB) : Nat × DB :=
  ((db.pytest_errors.filter fun r => r.node_id == nid).length,
   { db with pytest_errors := db.pytest_errors.filter fun r => !(r.node_id == nid) })

/-- The row ORDER BY id LIMIT 1 selects from a list of coverage_issues
rows. -/
def minByIdIssue : List CoverageIssueRow → Option CoverageIssueRow
  | [] => none
  | r :: rs =>
    match minByIdIssue rs with
    | none => some r
    | some m => if r.id ≤ m.id then some r else some m

/-- SELECT * FROM coverage_branches WHERE coverage_issue_id = ?
(repository.py lines 482-489). -/
def branchesForIssue (issueId : Nat) (db : DB) : List CoverageBranchRow :=
  db.coverage_branches.filter fun b => b.coverage_issue_id == issueId

/-- Shallow embedding of get_next_coverage_issue (repository.py lines
437-500). The whole body sits in a try/except inside the cursor scope (lines
452 and 498-500): when the storage layer raises — modelled by fail = true —
the exception is caught, logged and None is returned, so the caller cannot
tell a failure from an empty table. Otherwise the least-id coverage_issues
row is returned together with its branches; the WHERE file_path filter is
only applied when the supplied path is truthy (line 461), so an empty string
behaves like no filter. -/
def get_next_coverage_issue (path : Option String) (fail : Bool) (db : DB) :
    Option (CoverageIssueRow × List CoverageBranchRow) :=
  if fail then none
  else
    let cands := match path with
      | some p => if p == "" then db.coverage_issues
                  else db.coverage_issues.filter fun r => r.file_path == p
      | none => db.coverage_issues
    match minByIdIssue cands with
    | none => none
    | some i => some (i, branchesForIssue i.id db)

/-- Candidate rows of the query inside get_next_pytest_error_dict
(repository.py lines 520-536): all pytest_errors rows, or only those of the
supplied test file. -/
def pytestErrorCandidates (tf : Option Nat) (db : DB) : List PytestErrorRow :=
  match tf with
  | some tfId => db.pytest_errors.filter fun r => r.test_file_id == tfId
  | none => db.pytest_errors

/-- Return value of get_next_pytest_error_dict: either a found error row or
the literal success dictionary — both are plain dicts in the source, so the
caller can only tell them apart by inspecting the keys. -/
inductive NextPytestErrorDict where
  | found (e : PytestErrorRow)
  | success (msg : String)
deriving DecidableEq

/-- Shallow embedding of get_next_pytest_error_dict (repository.py lines
503-562): least-id pytest_errors row among the candidates; the returned copy
gets error_type forced to "PyTestError" (line 557); when no row matches, the
dictionary mapping "Success" to "No pytest errors were found" is returned
(line 562) instead of an absent value. -/
def get_next_pytest_error_dict (tf : Option Nat) (db : DB) : NextPytestErrorDict :=
  match minByIdErr (pytestErrorCandidates tf db) with
  | some r => .found { r with error_type := "PyTestError" }
  | none => .success "No pytest errors were found"

/-- Shallow embedding of save_source_file_to_db (repository.py lines
565-615): SELECT id FROM source_files WHERE file_path = ?, INSERT when
absent, return the id. The whole body is wrapped in try/except (lines 577
and 610-615): any exception is logged and the function returns None. fail
injects a storage failure raised by the INSERT of lines 590-597. -/
def save_source_file_to_db (path : String) (now : Nat) (fail : Bool) (db : DB) :
    Option Nat × DB :=
  let res := get_cursor (fun db0 =>
    match db0.source_files.find? (fun r => r.file_path == path) with
    | some r => ((.ok (some r.id) : Except Unit (Option Nat)), db0)
    | none =>
      if fail then (.error (), db0)
      else (.ok (some db0.nextSourceFileId), insertSourceFileRow path "" now db0)) db
  match res with
  | (.ok v, db1) => (v, db1)
  | (.error _, db1) => (none, db1)

/-- Shallow embedding of update_source_file (crud/source_files.py lines
77-109). The update_fields list always receives "updated_at = ?" (lines
96-97) even when file_hash is not supplied, so the UPDATE statement always
runs; the return value is rowcount > 0, i.e. whether a row with that id
exists. -/
def update_source_file (file_id : Nat) (file_hash : Option String) (now : Nat)
    (db : DB) : Bool × DB :=
  (db.source_files.any (fun r => r.id == file_id),
   { db with
     source_files := db.source_files.map fun r =>
       if r.id == file_id then
         { r with file_hash := file_hash.getD r.file_hash, updated_at := now }
       else r })

/-- Shallow embedding of update_pytest_file (crud/pytest_files.py lines
98-139): like update_source_file, "updated_at = ?" is always appended (lines
126-127), so the UPDATE always runs and returns rowcount > 0. -/
def update_pytest_file (file_id : Nat) (source_file_id : Option Nat)
    (pytest_summary : Option String) (now : Nat) (db : DB) : Bool × DB :=
  (db.pytest_files.any (fun r => r.id == file_id),
   { db with
     pytest_files := db.pytest_files.map fun r =>
       if r.id == file_id then
         { r with
           source_file_id := match source_file_id with
             | some s => some s
             | none => r.source_file_id,
           pytest_summary := pytest_summary.getD r.pytest_summary,
           updated_at := now }
       else r })

/-- Shallow embedding of update_coverage_issue (crud/coverage_issues.py
lines 101-142): when neither optional field is supplied the function returns
False before touching the database (lines 128-129); otherwise the supplied
fields are updated — coverage_issues has no updated_at column and none is
written — and rowcount > 0 is returned. -/
def update_coverage_issue (issue_id : Nat) (is_excluded : Option Bool)
    (source_file_id : Option Nat) (db : DB) : Bool × DB :=
  if is_excluded.isNone && source_file_id.isNone then (false, db)
  else
    (db.coverage_issues.any (fun r => r.id == issue_id),
     { db with
       coverage_issues := db.coverage_issues.map fun r =>
         if r.id == issue_id then
           { r with
             is_excluded := is_excluded.getD r.is_excluded,
             source_file_id := match source_file_id with
               | some s => some s
               | none => r.source_file_id }
         else r })

/-- Referential integrity predicate for the cascade claims: no
coverage_branches row references a missing coverage_issues row. -/
def noOrphanBranches (db : DB) : Prop :=
  ∀ b ∈ db.coverage_branches, ∃ i ∈ db.coverage_issues, i.id = b.coverage_issue_id

/-- Specification of the pytest_errors rows a failure-free run of
save_test_results_to_db inserts for a test file, given the first fresh
rowid. -/
def specErrRows (tfId now : Nat) : List PyTestErrorInput → Nat → List PytestErrorRow
  | [], _ => []
  | e :: rest, eid =>
    { id := eid, node_id := e.node_id.getD "", test_file_id := tfId,
      outcome := e.outcome.getD "failed", error_type := "PyTestError",
      result := e.result.getD "[]", longrepr := e.longrepr.getD "",
      created_at := now } :: specErrRows tfId now rest (eid + 1)

/-- Specification of the CoverageBranch rows created for one line-level
issue's nested branch list (spec section 4.3: branch children are inserted
"nested under a freshly-inserted line issue"), given the parent id and the
first fresh branch rowid. -/
def specBranchRows (parentId now : Nat) : List CoverageInputBranch → Nat → List CoverageBranchRow
  | [], _ => []
  | b :: rest, nb =>
    { id := nb, coverage_issue_id := parentId, source_line := b.source_line.getD 0,
      end_line := b.end_line.getD 0, condition := b.condition.getD "",
      branch_type := b.branch_type.getD "", created_at := now }
      :: specBranchRows parentId now rest (nb + 1)

/-- Specification of the rows created for the line-level entries (spec
section 4.3: "inserts line issues first (capturing generated ids)", each
owning the branch rows of its nested list); returns the issue rows, the
branch rows and the next fresh issue/branch rowids. -/
def specLineRows (path : String) (sfId now : Nat) : List CoverageInput → Nat → Nat →
    List CoverageIssueRow × List CoverageBranchRow × Nat × Nat
  | [], ni, nb => ([], [], ni, nb)
  | i :: rest, ni, nb =>
    let bs := i.branches.getD []
    let issueRow : CoverageIssueRow :=
      { id := ni, file_path := path, source_file_id := some sfId,
        line_number := i.line_number.getD 0, is_excluded := i.is_excluded.getD false,
        created_at := now }
    let t := specLineRows path sfId now rest (ni + 1) (nb + bs.length)
    (issueRow :: t.1, specBranchRows ni now bs nb ++ t.2.1, t.2.2.1, t.2.2.2)

/-- Specification of the rows created for the standalone branch-level
entries (spec section 4.3: "for a standalone branch issue, under a
newly-created parent CoverageIssue row created solely to own it"): every
entry without a parent_issue_id key yields one fresh parent issue row owning
exactly one branch row; entries with that key yield nothing. -/
def specStandaloneRows (path : String) (sfId now : Nat) : List CoverageInput → Nat → Nat →
    List CoverageIssueRow × List CoverageBranchRow × Nat × Nat
  | [], ni, nb => ([], [], ni, nb)
  | b :: rest, ni, nb =>
    if b.parent_issue_id.isSome then specStandaloneRows path sfId now rest ni nb
    else
      let issueRow : CoverageIssueRow :=
        { id := ni, file_path := path, source_file_id := some sfId,
          line_number := b.source_line.getD 0, is_excluded := false, created_at := now }
      let branchRow : CoverageBranchRow :=
        { id := nb, coverage_issue_id := ni, source_line := b.source_line.getD 0,
          end_line := b.end_line.getD 0, condition := b.condition.getD "",
          branch_type := b.branch_type.getD "", created_at := now }
      let t := specStandaloneRows path sfId now rest (ni + 1) (nb + 1)
      (issueRow :: t.1, branchRow :: t.2.1, t.2.2.1, t.2.2.2)

/-- Database with all five tables empty and all rowid counters at 1, as
init_db leaves a fresh database. -/
def emptyDB : DB :=
  { source_files := [], pytest_files := [], pytest_errors := [],
    coverage_issues := [], coverage_branches := [],
    nextSourceFileId := 1, nextPytestFileId := 1, nextPytestErrorId := 1,
    nextCoverageIssueId := 1, nextCoverageBranchId := 1 }

/-- Failing test error dictionary for test_x, as in spec scenario 1. -/
def errInputX : PyTestErrorInput :=
  { node_id := some "tests/test_a.py::test_x", outcome := some "failed",
    result := none, longrepr := some "AssertionError" }

/-- Failing test error dictionary for test_y. -/
def errInputY : PyTestErrorInput :=
  { node_id := some "tests/test_a.py::test_y", outcome := some "failed",
    result := none, longrepr := some "AssertionError" }

/-- Database holding one source file row with id 1. -/
def dbOneSource : DB :=
  { emptyDB with
    source_files := [{ id := 1, file_path := "src/m.py", file_hash := "h",
                       created_at := 0, updated_at := 0 }],
    nextSourceFileId := 2 }

/-- Database holding one coverage issue row with id 1 and no branches. -/
def dbOneIssue : DB :=
  { emptyDB with
    coverage_issues := [{ id := 1, file_path := "src/m.py",
                          source_file_id := some 1, line_number := 10,
                          is_excluded := false, created_at := 0 }],
    nextCoverageIssueId := 2 }

/-- Pytest error row with id 1 stored for test file 1. -/
def errRow1 : PytestErrorRow :=
  { id := 1, node_id := "tests/test_a.py::test_x", test_file_id := 1,
    outcome := "failed", error_type := "PyTestError", result := "[]",
    longrepr := "AssertionError", created_at := 0 }

/-- Pytest error row with id 2 stored for test file 1. -/
def errRow2 : PytestErrorRow :=
  { id := 2, node_id := "tests/test_a.py::test_y", test_file_id := 1,
    outcome := "failed", error_type := "PyTestError", result := "[]",
    longrepr := "AssertionError", created_at := 0 }

/-- Database holding one test file row with id 1 and the two error rows. -/
def dbTwoErrors : DB :=
  { emptyDB with
    pytest_files := [{ id := 1, file_path := "tests/test_a.py",
                       source_file_id := none, pytest_summary := "s",
                       created_at := 0, updated_at := 0 }],
    pytest_errors := [errRow1, errRow2],
    nextPytestFileId := 2, nextPytestErrorId := 3 }

/-- Rows of pytest_files with the given file_path, in table order: the
candidate set of the SELECT ... WHERE file_path = ? lookup of
save_test_results_to_db. -/
def testFilesForPath (path : String) (db : DB) : List PytestFileRow :=
  db.pytest_files.filter fun r => r.file_path == path

/-- Rows of source_files with the given file_path, in table order. -/
def sourceFilesForPath (path : String) (db : DB) : List SourceFileRow :=
  db.source_files.filter fun r => r.file_path == path

/-- Database holding one coverage issue with id 1 owning one branch. -/
def dbIssueWithBranch : DB :=
  { emptyDB with
    coverage_issues := [{ id := 1, file_path := "src/m.py",
                          source_file_id := some 1, line_number := 10,
                          is_excluded := false, created_at := 0 }],
    coverage_branches := [{ id := 1, coverage_issue_id := 1, source_line := 10,
                            end_line := 12, condition := "x > 0",
                            branch_type := "if", created_at := 0 }],
    nextCoverageIssueId := 2, nextCoverageBranchId := 2 }

/-- Line-level coverage issue input with one nested branch, as in spec
scenario 2. -/
def covInputLine : CoverageInput :=
  { type := some "CoverageIssue", line_number := some 10, is_excluded := none,
    branches := some [{ source_line := some 10, end_line := some 12,
                        condition := some "x > 0", branch_type := some "if" }],
    source_line := none, end_line := none, condition := none,
    branch_type := none, parent_issue_id := none }

/-- Number of child INSERT statements a failure-free run of the line-issue
loop executes per entry: one for the issue row plus one per nested branch. -/
def lineCost : List CoverageInput → Nat
  | [] => 0
  | i :: rest => 1 + (i.branches.getD []).length + lineCost rest

/-- Number of child INSERT statements a failure-free run of the standalone
branch loop executes per entry: none for skipped entries, two otherwise. -/
def standaloneCost : List CoverageInput → Nat
  | [] => 0
  | b :: rest =>
    if b.parent_issue_id.isSome then standaloneCost rest
    else 2 + standaloneCost rest

/-- Specification of the rows one save_coverage_issues run stores for the
incoming list (spec section 4.3): partition on the type key, line issues
first with their nested branch children, then the standalone branch entries,
each owning a fresh parent row. -/
def specCoverageSaveRows (path : String) (sfId ni nb now : Nat)
    (issues : List CoverageInput) :
    List CoverageIssueRow × List CoverageBranchRow :=
  let tl := specLineRows path sfId now (line_issues issues) ni nb
  let ts := specStandaloneRows path sfId now (branch_issues issues) tl.2.2.1 tl.2.2.2
  (tl.1 ++ ts.1, tl.2.1 ++ ts.2.1)

/-- Standalone branch-level entry that carries a parent_issue_id key. -/
def covInputBranchParented : CoverageInput :=
  { type := some "CoverageBranch", line_number := none, is_excluded := none,
    branches := none, source_line := some 5, end_line := some 7,
    condition := some "y > 0", branch_type := some "if",
    parent_issue_id := some 3 }

/-- A fetchone over an empty candidate set finds nothing. -/
theorem find?_of_filter_eq_nil {α : Type} {p : α → Bool} {l : List α}
    (h : l.filter p = []) : l.find? p = none := by
  rw [List.find?_eq_none]
  intro x hx hpx
  have : x ∈ l.filter p := List.mem_filter.mpr ⟨hx, hpx⟩
  rw [h] at this
  simp at this

/-- When the candidate set is a single row, fetchone returns exactly it. -/
theorem find?_of_filter_eq_singleton {α : Type} {p : α → Bool} {l : List α} {r : α}
    (h : l.filter p = [r]) : l.find? p = some r := by
  induction l with
  | nil => simp at h
  | cons a t ih =>
    rw [List.filter_cons] at h
    by_cases hpa : p a
    · rw [if_pos hpa] at h
      rw [List.cons.injEq] at h
      rw [List.find?_cons_of_pos _ hpa, h.1]
    · rw [if_neg hpa] at h
      rw [List.find?_cons_of_neg _ hpa]
      exact ih h

/-- Mapping a row transformation that does not change a predicate commutes
with filtering by that predicate. -/
theorem map_filter_pred_inv {α : Type} (f : α → α) (p : α → Bool)
    (h : ∀ a, p (f a) = p a) :
    ∀ l : List α, (l.map f).filter p = (l.filter p).map f := by
  intro l
  induction l with
  | nil => rfl
  | cons a t ih =>
    rw [List.map_cons, List.filter_cons, List.filter_cons, h a]
    by_cases hpa : p a
    · rw [if_pos hpa, if_pos hpa, List.map_cons, ih]
    · rw [if_neg hpa, if_neg hpa, ih]

/-- ORDER BY id LIMIT 1 finds nothing exactly on an empty candidate set. -/
theorem minByIdErr_eq_none {l : List PytestErrorRow} : minByIdErr l = none ↔ l = [] := by
  cases l with
  | nil => simp [minByIdErr]
  | cons r rs =>
    simp only [minByIdErr]
    cases h : minByIdErr rs with
    | none => simp
    | some m =>
      by_cases hc : r.id ≤ m.id
      · simp [hc]
      · simp [hc]

/-- ORDER BY id LIMIT 1 returns a stored row of least id. -/
theorem minByIdErr_mem_le {l : List PytestErrorRow} {r : PytestErrorRow}
    (h : minByIdErr l = some r) : r ∈ l ∧ ∀ x ∈ l, r.id ≤ x.id := by
  induction l generalizing r with
  | nil => simp [minByIdErr] at h
  | cons a rs ih =>
    simp only [minByIdErr] at h
    cases hm : minByIdErr rs with
    | none =>
      simp only [hm] at h
      have hnil : rs = [] := minByIdErr_eq_none.mp hm
      injection h with h
      subst h; subst hnil
      exact ⟨List.mem_singleton.mpr rfl, by intro x hx; rw [List.mem_singleton.mp hx]⟩
    | some m =>
      simp only [hm] at h
      obtain ⟨hmem, hle⟩ := ih hm
      by_cases hc : a.id ≤ m.id
      · rw [if_pos hc] at h
        injection h with h
        subst h
        refine ⟨List.mem_cons_self _ _, ?_⟩
        intro x hx
        rcases List.mem_cons.mp hx with hxa | hxs
        · rw [hxa]
        · exact Nat.le_trans hc (hle x hxs)
      · rw [if_neg hc] at h
        injection h with h
        subst h
        refine ⟨List.mem_cons_of_mem _ hmem, ?_⟩
        intro x hx
        rcases List.mem_cons.mp hx with hxa | hxs
        · rw [hxa]; exact Nat.le_of_lt (Nat.lt_of_not_le hc)
        · exact hle x hxs

/-- C1. For every aggregate save operation, an exception raised partway
through inserting child rows is claimed to leave the database state equal to
the state before the call. The code violates this: get_connection is called
with isolation_level = None (db_manager.py lines 27 and 75), so the sqlite3
connection runs in autocommit mode, where the conn.rollback() of get_cursor
(line 112) is a no-op — contradicting get_cursor's own docstring, which
promises "a transactional scope around a series of operations" (lines
94-96). Evaluating the embedded code at the failing input: a run of
save_test_results_to_db on an empty database with two errors, where the
second child INSERT raises, re-raises the exception yet leaves the parent
pytest_files row and the first pytest_errors child row visible. -/
theorem save_test_results_partial_write_survives :
    (save_test_results_to_db "tests/test_a.py" "s" [errInputX, errInputY] 0
      (some 1) emptyDB).1 = .error () ∧
    (save_test_results_to_db "tests/test_a.py" "s" [errInputX, errInputY] 0
      (some 1) emptyDB).2 ≠ emptyDB ∧
    ((save_test_results_to_db "tests/test_a.py" "s" [errInputX, errInputY] 0
      (some 1) emptyDB).2.pytest_files.map fun r => r.file_path)
      = ["tests/test_a.py"] ∧
    ((save_test_results_to_db "tests/test_a.py" "s" [errInputX, errInputY] 0
      (some 1) emptyDB).2.pytest_errors.map fun r => r.node_id)
      = ["tests/test_a.py::test_x"] := by
  refine ⟨rfl, ?_, rfl, rfl⟩
  decide

/-- C6 counterexample. The claim says an entity update called with an
existing row's id and no optional fields returns false and leaves updated_at
unchanged; update_source_file on row id 1 of dbOneSource with no file_hash
returns true and bumps updated_at from 0 to 5. -/
theorem update_source_file_no_fields_not_noop :
    (update_source_file 1 none 5 dbOneSource).1 = true ∧
    ((update_source_file 1 none 5 dbOneSource).2.source_files.map fun r => r.updated_at)
      = [5] ∧
    (update_source_file 1 none 5 dbOneSource).2 ≠ dbOneSource := by
  refine ⟨rfl, rfl, ?_⟩
  decide

/-- C6 amended. update_coverage_issue with no optional fields supplied
returns false and leaves the state untouched; but update_source_file and
update_pytest_file with no optional fields still run an UPDATE that
refreshes updated_at on the matching row, returning true exactly when a row
with that id exists. -/
theorem update_no_fields_behaviour (fid now : Nat) (db : DB) :
    update_coverage_issue fid none none db = (false, db) ∧
    (update_source_file fid none now db).1 = db.source_files.any (fun r => r.id == fid) ∧
    (update_source_file fid none now db).2.source_files =
      db.source_files.map (fun r => if r.id == fid then { r with updated_at := now } else r) ∧
    (update_pytest_file fid none none now db).1 = db.pytest_files.any (fun r => r.id == fid) ∧
    (update_pytest_file fid none none now db).2.pytest_files =
      db.pytest_files.map (fun r => if r.id == fid then { r with updated_at := now } else r) :=
  ⟨rfl, rfl, rfl, rfl, rfl⟩

/-- C7 counterexample. The claim says a storage-layer exception is never
caught and converted into a default return value inside the repositories;
but get_next_coverage_issue catches every exception and returns None
(repository.py lines 498-500): on a database holding a coverage issue, a
failing read returns None — exactly the value a genuinely empty table
produces — so failure and absence are conflated. -/
theorem get_next_coverage_issue_swallows_failure :
    get_next_coverage_issue none true dbOneIssue = none ∧
    get_next_coverage_issue none false dbOneIssue ≠ none ∧
    get_next_coverage_issue none true emptyDB = none := by
  refine ⟨rfl, ?_, rfl⟩
  decide

/-- C9. When no pytest_errors row matches, get_next_pytest_error_dict
returns the literal success dictionary mapping "Success" to "No pytest
errors were found" rather than an absent value. -/
theorem get_next_pytest_error_dict_success_on_empty (tf : Option Nat) (db : DB)
    (h : pytestErrorCandidates tf db = []) :
    get_next_pytest_error_dict tf db = .success "No pytest errors were found" := by
  unfold get_next_pytest_error_dict
  rw [h]
  rfl

/-- Witness for C9 at the empty database with no test-file filter. -/
theorem get_next_pytest_error_dict_success_on_empty_witness :
    get_next_pytest_error_dict none emptyDB = .success "No pytest errors were found" :=
  get_next_pytest_error_dict_success_on_empty none emptyDB rfl

/-- C4. get_next_pytest_error returns the stored error with the least id
among those stored for the test file, or none when none are stored; after
delete_pytest_error removes the returned error's rows by node id, a second
call returns the least-id error still stored for that file, or none when
none remain. -/
theorem get_next_pytest_error_ordering (tfId : Nat) (db : DB) :
    (∀ r, get_next_pytest_error tfId db = some r →
      r ∈ errorsForTestFile tfId db ∧ ∀ x ∈ errorsForTestFile tfId db, r.id ≤ x.id) ∧
    (get_next_pytest_error tfId db = none ↔ errorsForTestFile tfId db = []) ∧
    (∀ r, get_next_pytest_error tfId db = some r →
      (∀ e ∈ (delete_pytest_error r.node_id db).2.pytest_errors, e.node_id ≠ r.node_id) ∧
      ((get_next_pytest_error tfId (delete_pytest_error r.node_id db).2 = none ∧
        errorsForTestFile tfId (delete_pytest_error r.node_id db).2 = []) ∨
       (∃ r2, get_next_pytest_error tfId (delete_pytest_error r.node_id db).2 = some r2 ∧
        r2 ∈ errorsForTestFile tfId (delete_pytest_error r.node_id db).2 ∧
        ∀ x ∈ errorsForTestFile tfId (delete_pytest_error r.node_id db).2, r2.id ≤ x.id))) := by
  refine ⟨fun r hr => minByIdErr_mem_le hr, minByIdErr_eq_none, fun r hr => ⟨?_, ?_⟩⟩
  · intro e he
    simp only [delete_pytest_error, List.mem_filter] at he
    intro hEq
    rw [hEq] at he
    simp at he
  · cases h2 : get_next_pytest_error tfId (delete_pytest_error r.node_id db).2 with
    | none => exact Or.inl ⟨rfl, minByIdErr_eq_none.mp h2⟩
    | some r2 =>
      obtain ⟨hm, hl⟩ := minByIdErr_mem_le h2
      exact Or.inr ⟨r2, rfl, hm, hl⟩

/-- Witness for C4 on a database storing errors with ids 1 and 2 for test
file 1: the first call returns the id-1 row, and after deleting it by node
id the remaining rows no longer carry that node id. -/
theorem get_next_pytest_error_ordering_witness :
    (errRow1 ∈ errorsForTestFile 1 dbTwoErrors ∧
      ∀ x ∈ errorsForTestFile 1 dbTwoErrors, errRow1.id ≤ x.id) ∧
    ((∀ e ∈ (delete_pytest_error errRow1.node_id dbTwoErrors).2.pytest_errors,
        e.node_id ≠ errRow1.node_id) ∧
     ((get_next_pytest_error 1 (delete_pytest_error errRow1.node_id dbTwoErrors).2 = none ∧
       errorsForTestFile 1 (delete_pytest_error errRow1.node_id dbTwoErrors).2 = []) ∨
      (∃ r2, get_next_pytest_error 1 (delete_pytest_error errRow1.node_id dbTwoErrors).2 = some r2 ∧
       r2 ∈ errorsForTestFile 1 (delete_pytest_error errRow1.node_id dbTwoErrors).2 ∧
       ∀ x ∈ errorsForTestFile 1 (delete_pytest_error errRow1.node_id dbTwoErrors).2,
         r2.id ≤ x.id))) :=
  ⟨(get_next_pytest_error_ordering 1 dbTwoErrors).1 errRow1 rfl,
   (get_next_pytest_error_ordering 1 dbTwoErrors).2.2 errRow1 rfl⟩

/-- When the injected failure index lies within the loop's range, the loop
raises. -/
theorem insertTestErrors_fail_hits (tfId now : Nat) (f : Nat)
    (l : List PyTestErrorInput) :
    ∀ (c : Nat) (db : DB), c ≤ f → f < c + l.length →
      (insertTestErrors tfId now (some f) c l db).1 = .error () := by
  induction l with
  | nil => intro c db hcf hf; simp at hf; omega
  | cons e rest ih =>
    intro c db hcf hf
    by_cases hc : f = c
    · simp [insertTestErrors, hc]
    · rw [insertTestErrors, if_neg (by simp only [Option.some.injEq]; exact hc)]
      exact ih (c + 1) _ (by omega) (by simp at hf; omega)

/-- A failure-free run of the insert loop appends exactly the specification
rows and advances the fresh-rowid counter by their number. -/
theorem insertTestErrors_ok (tfId now : Nat) (l : List PyTestErrorInput) :
    ∀ (k : Nat) (db : DB),
      insertTestErrors tfId now none k l db =
        (.ok (), { db with
          pytest_errors := db.pytest_errors ++ specErrRows tfId now l db.nextPytestErrorId,
          nextPytestErrorId := db.nextPytestErrorId + l.length }) := by
  induction l with
  | nil =>
    intro k db
    simp [insertTestErrors, specErrRows]
  | cons e rest ih =>
    intro k db
    rw [insertTestErrors, if_neg (by simp)]
    rw [ih (k + 1) (insertPytestErrorRow tfId now e db)]
    simp only [insertPytestErrorRow, specErrRows, Prod.mk.injEq, DB.mk.injEq,
      List.append_assoc, List.singleton_append, List.length_cons, true_and, and_true]
    all_goals omega

/-- C7 amended. Storage-layer exceptions propagate out of
save_test_results_to_db (and the other operations whose bodies sit directly
in the cursor scope), but get_next_coverage_issue and save_source_file_to_db
wrap their bodies in try/except and convert every exception into None, so
for those two operations an absent result can disguise a failure. -/
theorem storage_failure_propagation (path s : String)
    (errors : List PyTestErrorInput) (now k : Nat) (db : DB)
    (hk : k < errors.length) (p2 : Option String) (db2 : DB)
    (p3 : String) (now3 : Nat) (db3 : DB)
    (h3 : db3.source_files.find? (fun r => r.file_path == p3) = none) :
    (save_test_results_to_db path s errors now (some k) db).1 = .error () ∧
    get_next_coverage_issue p2 true db2 = none ∧
    (save_source_file_to_db p3 now3 true db3).1 = none := by
  refine ⟨?_, rfl, ?_⟩
  · exact insertTestErrors_fail_hits _ now k errors 0 _ (Nat.zero_le k)
      (by omega)
  · simp [save_source_file_to_db, get_cursor, h3]

/-- Witness for the amended C7: on the empty database, a failure injected at
the only child INSERT of save_test_results_to_db propagates, while the
failing variants of get_next_coverage_issue and save_source_file_to_db
return None. -/
theorem storage_failure_propagation_witness :
    (save_test_results_to_db "tests/test_a.py" "s" [errInputX] 0 (some 0) emptyDB).1
      = .error () ∧
    get_next_coverage_issue none true emptyDB = none ∧
    (save_source_file_to_db "src/m.py" 0 true emptyDB).1 = none :=
  storage_failure_propagation "tests/test_a.py" "s" [errInputX] 0 0 emptyDB
    (by decide) none emptyDB "src/m.py" 0 emptyDB rfl

/-- Every specification error row carries the test file id it was inserted
under. -/
theorem specErrRows_tfid (tfId now : Nat) (l : List PyTestErrorInput) :
    ∀ (eid : Nat) (x : PytestErrorRow), x ∈ specErrRows tfId now l eid →
      x.test_file_id = tfId := by
  induction l with
  | nil => intro eid x hx; simp [specErrRows] at hx
  | cons e rest ih =>
    intro eid x hx
    rw [specErrRows, List.mem_cons] at hx
    rcases hx with hx | hx
    · rw [hx]
    · exact ih (eid + 1) x hx

/-- The specification rows are one per supplied error. -/
theorem specErrRows_length (tfId now : Nat) (l : List PyTestErrorInput) :
    ∀ eid : Nat, (specErrRows tfId now l eid).length = l.length := by
  induction l with
  | nil => intro eid; rfl
  | cons e rest ih => intro eid; rw [specErrRows, List.length_cons, ih, List.length_cons]

/-- One failure-free run of save_test_results_to_db, started from a state
with at most one pytest_files row for the path, leaves exactly one
pytest_files row for the path and exactly one pytest_errors row per supplied
error under that row's id. -/
theorem save_test_results_run (path s : String) (errors : List PyTestErrorInput)
    (now : Nat) (db : DB)
    (hp : (testFilesForPath path db).length ≤ 1) :
    ∃ r : PytestFileRow,
      testFilesForPath path (save_test_results_to_db path s errors now none db).2 = [r] ∧
      (errorsForTestFile r.id (save_test_results_to_db path s errors now none db).2).length
        = errors.length := by
  have hdel : ∀ (tfId : Nat) (l : List PytestErrorRow),
      (l.filter fun r => !(r.test_file_id == tfId)).filter (fun e => e.test_file_id == tfId) = [] := by
    intro tfId l
    rw [List.filter_filter]
    refine List.filter_eq_nil_iff.mpr ?_
    intro a _
    cases h : a.test_file_id == tfId <;> simp [h]
  have hspec : ∀ (tfId : Nat) (eid : Nat),
      (specErrRows tfId now errors eid).filter (fun e => e.test_file_id == tfId)
        = specErrRows tfId now errors eid := by
    intro tfId eid
    refine List.filter_eq_self.mpr ?_
    intro a ha
    simp [specErrRows_tfid tfId now errors eid a ha]
  cases hL : db.pytest_files.filter (fun r => r.file_path == path) with
  | nil =>
    have hfind : db.pytest_files.find? (fun r => r.file_path == path) = none :=
      find?_of_filter_eq_nil hL
    have hmap1 := map_filter_pred_inv
      (fun r : PytestFileRow =>
        if r.id == db.nextPytestFileId then { r with pytest_summary := s, updated_at := now } else r)
      (fun r => r.file_path == path)
      (fun a => by by_cases h : a.id == db.nextPytestFileId <;> simp [h])
      db.pytest_files
    have heq : save_test_results_to_db path s errors now none db =
        insertTestErrors db.nextPytestFileId now none 0 errors
          (deletePytestErrorsByTestFileId db.nextPytestFileId
            (updatePytestSummary db.nextPytestFileId s now
              (insertPytestFileRow path s now db))) := by
      simp only [save_test_results_to_db, get_cursor]
      rw [hfind]
    rw [heq, insertTestErrors_ok]
    refine ⟨{ id := db.nextPytestFileId, file_path := path, source_file_id := none,
              pytest_summary := s, created_at := now, updated_at := now }, ?_, ?_⟩
    · simp only [testFilesForPath, deletePytestErrorsByTestFileId, updatePytestSummary,
        insertPytestFileRow]
      rw [List.map_append, List.filter_append, hmap1, hL, List.map_nil, List.nil_append]
      simp
    · simp only [errorsForTestFile, deletePytestErrorsByTestFileId, updatePytestSummary,
        insertPytestFileRow, List.filter_append, hdel, hspec, List.nil_append,
        specErrRows_length]
  | cons x t =>
    have ht : t = [] := by
      rw [testFilesForPath, hL] at hp
      cases t with
      | nil => rfl
      | cons y t2 => simp at hp
    subst ht
    have hx : x ∈ db.pytest_files.filter (fun r => r.file_path == path) := by
      rw [hL]; exact List.mem_singleton.mpr rfl
    have px : (x.file_path == path) = true := (List.mem_filter.mp hx).2
    have hfind : db.pytest_files.find? (fun r => r.file_path == path) = some x :=
      find?_of_filter_eq_singleton hL
    have hmap2 := map_filter_pred_inv
      (fun r : PytestFileRow =>
        if r.id == x.id then { r with pytest_summary := s, updated_at := now } else r)
      (fun r => r.file_path == path)
      (fun a => by by_cases h : a.id == x.id <;> simp [h])
      db.pytest_files
    have heq : save_test_results_to_db path s errors now none db =
        insertTestErrors x.id now none 0 errors
          (deletePytestErrorsByTestFileId x.id
            (updatePytestSummary x.id s now db)) := by
      simp only [save_test_results_to_db, get_cursor]
      rw [hfind]
    rw [heq, insertTestErrors_ok]
    refine ⟨{ x with pytest_summary := s, updated_at := now }, ?_, ?_⟩
    · simp only [testFilesForPath, deletePytestErrorsByTestFileId, updatePytestSummary]
      rw [hmap2, hL]
      simp
    · simp only [errorsForTestFile, deletePytestErrorsByTestFileId, updatePytestSummary,
        List.filter_append, hdel, hspec, List.nil_append, specErrRows_length]

/-- C2. Calling save_test_results_to_db twice in succession with the same
error list leaves exactly one pytest_files row for the path and exactly
len(errors) pytest_errors rows for that row's id — not twice as many: each
run first deletes every pytest_errors row of the test file before
reinserting. The hypothesis is the schema's uniqueness of file_path: the
starting state has at most one pytest_files row for the path. -/
theorem save_test_results_idempotent_replace (path s : String)
    (errors : List PyTestErrorInput) (now1 now2 : Nat) (db : DB)
    (hp : (testFilesForPath path db).length ≤ 1) :
    ∃ r : PytestFileRow,
      testFilesForPath path
        (save_test_results_to_db path s errors now2 none
          (save_test_results_to_db path s errors now1 none db).2).2 = [r] ∧
      (errorsForTestFile r.id
        (save_test_results_to_db path s errors now2 none
          (save_test_results_to_db path s errors now1 none db).2).2).length
        = errors.length := by
  obtain ⟨r1, h1, _⟩ := save_test_results_run path s errors now1 db hp
  exact save_test_results_run path s errors now2 _ (by rw [h1]; exact Nat.le_refl 1)

/-- Witness for C2: two runs on the empty database with one error leave one
test-file row and one error row. -/
theorem save_test_results_idempotent_replace_witness :
    ∃ r : PytestFileRow,
      testFilesForPath "tests/test_a.py"
        (save_test_results_to_db "tests/test_a.py" "s" [errInputX] 1 none
          (save_test_results_to_db "tests/test_a.py" "s" [errInputX] 0 none emptyDB).2).2 = [r] ∧
      (errorsForTestFile r.id
        (save_test_results_to_db "tests/test_a.py" "s" [errInputX] 1 none
          (save_test_results_to_db "tests/test_a.py" "s" [errInputX] 0 none emptyDB).2).2).length
        = 1 :=
  save_test_results_idempotent_replace "tests/test_a.py" "s" [errInputX] 0 1 emptyDB
    (by decide)

/-- C5. Two successive calls of save_source_file_to_db for the same path
return the same identifier, and exactly one source_files row with that path
exists afterwards. The hypothesis is the schema's uniqueness of file_path in
the starting state. -/
theorem save_source_file_upsert_stable (path : String) (now1 now2 : Nat) (db : DB)
    (hp : (sourceFilesForPath path db).length ≤ 1) :
    (save_source_file_to_db path now1 false db).1
      = (save_source_file_to_db path now2 false
          (save_source_file_to_db path now1 false db).2).1 ∧
    (save_source_file_to_db path now1 false db).1.isSome = true ∧
    (sourceFilesForPath path
      (save_source_file_to_db path now2 false
        (save_source_file_to_db path now1 false db).2).2).length = 1 := by
  cases hL : db.source_files.filter (fun r => r.file_path == path) with
  | nil =>
    have hfind : db.source_files.find? (fun r => r.file_path == path) = none :=
      find?_of_filter_eq_nil hL
    have h1 : save_source_file_to_db path now1 false db =
        (some db.nextSourceFileId, insertSourceFileRow path "" now1 db) := by
      simp only [save_source_file_to_db, get_cursor]
      rw [hfind]
      rfl
    have hfind2 : (insertSourceFileRow path "" now1 db).source_files.find?
        (fun r => r.file_path == path)
        = some { id := db.nextSourceFileId, file_path := path, file_hash := "",
                 created_at := now1, updated_at := now1 } := by
      simp only [insertSourceFileRow]
      rw [List.find?_append, hfind]
      simp
    have h2 : save_source_file_to_db path now2 false (insertSourceFileRow path "" now1 db) =
        (some db.nextSourceFileId, insertSourceFileRow path "" now1 db) := by
      simp only [save_source_file_to_db, get_cursor]
      rw [hfind2]
    rw [h1, h2]
    refine ⟨rfl, rfl, ?_⟩
    simp only [sourceFilesForPath, insertSourceFileRow, List.filter_append, hL,
      List.nil_append]
    simp
  | cons x t =>
    have ht : t = [] := by
      rw [sourceFilesForPath, hL] at hp
      cases t with
      | nil => rfl
      | cons y t2 => simp at hp
    subst ht
    have hfind : db.source_files.find? (fun r => r.file_path == path) = some x :=
      find?_of_filter_eq_singleton hL
    have h1 : save_source_file_to_db path now1 false db = (some x.id, db) := by
      simp only [save_source_file_to_db, get_cursor]
      rw [hfind]
    have h2 : save_source_file_to_db path now2 false db = (some x.id, db) := by
      simp only [save_source_file_to_db, get_cursor]
      rw [hfind]
    simp only [h1]
    simp only [h2]
    simp [sourceFilesForPath, hL]

/-- Witness for C5 on the empty database. -/
theorem save_source_file_upsert_stable_witness :
    (save_source_file_to_db "src/m.py" 0 false emptyDB).1
      = (save_source_file_to_db "src/m.py" 1 false
          (save_source_file_to_db "src/m.py" 0 false emptyDB).2).1 ∧
    (save_source_file_to_db "src/m.py" 0 false emptyDB).1.isSome = true ∧
    (sourceFilesForPath "src/m.py"
      (save_source_file_to_db "src/m.py" 1 false
        (save_source_file_to_db "src/m.py" 0 false emptyDB).2).2).length = 1 :=
  save_source_file_upsert_stable "src/m.py" 0 1 emptyDB (by decide)

/-- Inserting a coverage issue row preserves the no-orphan invariant. -/
theorem noOrphans_insertIssue (path : String) (sfId : Nat) (line : Int)
    (excl : Bool) (now : Nat) (db : DB) (h : noOrphanBranches db) :
    noOrphanBranches (insertCoverageIssueRow path sfId line excl now db) := by
  intro b hb
  simp only [insertCoverageIssueRow] at hb ⊢
  obtain ⟨i, hi, hid⟩ := h b hb
  exact ⟨i, List.mem_append_left _ hi, hid⟩

/-- The freshly inserted coverage issue row is present with the fresh id. -/
theorem parent_mem_insertIssue (path : String) (sfId : Nat) (line : Int)
    (excl : Bool) (now : Nat) (db : DB) :
    ∃ i ∈ (insertCoverageIssueRow path sfId line excl now db).coverage_issues,
      i.id = db.nextCoverageIssueId := by
  refine ⟨{ id := db.nextCoverageIssueId, file_path := path, source_file_id := some sfId,
            line_number := line, is_excluded := excl, created_at := now }, ?_, rfl⟩
  simp [insertCoverageIssueRow]

/-- The branch-insert loop preserves the no-orphan invariant whenever its
parent issue exists, whether it completes or raises partway. -/
theorem insertBranchList_noOrphans (parentId now : Nat) (failAt : Option Nat)
    (bs : List CoverageInputBranch) :
    ∀ (k : Nat) (db : DB), noOrphanBranches db →
      (∃ i ∈ db.coverage_issues, i.id = parentId) →
      noOrphanBranches (insertBranchList parentId now failAt k bs db).2.1 := by
  induction bs with
  | nil => intro k db h _; simpa [insertBranchList] using h
  | cons b rest ih =>
    intro k db h hp
    rw [insertBranchList]
    by_cases hf : failAt = some k
    · rw [if_pos hf]; simpa using h
    · rw [if_neg hf]
      apply ih (k + 1)
      · intro c hc
        simp only [insertCoverageBranchRow] at hc ⊢
        rcases List.mem_append.mp hc with hc | hc
        · exact h c hc
        · rw [List.mem_singleton] at hc
          subst hc
          obtain ⟨i, hi, hid⟩ := hp
          exact ⟨i, hi, hid⟩
      · obtain ⟨i, hi, hid⟩ := hp
        exact ⟨i, by simpa [insertCoverageBranchRow] using hi, hid⟩

/-- The line-issue insert loop preserves the no-orphan invariant, whether it
completes or raises partway. -/
theorem insertLineIssues_noOrphans (path : String) (sfId now : Nat)
    (failAt : Option Nat) (l : List CoverageInput) :
    ∀ (k : Nat) (db : DB), noOrphanBranches db →
      noOrphanBranches (insertLineIssues path sfId now failAt k l db).2.1 := by
  induction l with
  | nil => intro k db h; simpa [insertLineIssues] using h
  | cons i rest ih =>
    intro k db h
    rw [insertLineIssues]
    by_cases hf : failAt = some k
    · rw [if_pos hf]; simpa using h
    · rw [if_neg hf]
      have h1 : noOrphanBranches (insertCoverageIssueRow path sfId
          (i.line_number.getD 0) (i.is_excluded.getD false) now db) :=
        noOrphans_insertIssue _ _ _ _ _ _ h
      have hp1 : ∃ j ∈ (insertCoverageIssueRow path sfId (i.line_number.getD 0)
          (i.is_excluded.getD false) now db).coverage_issues,
          j.id = db.nextCoverageIssueId :=
        parent_mem_insertIssue _ _ _ _ _ _
      cases hbr : i.branches with
      | none =>
        exact ih (k + 1) _ h1
      | some bs =>
        dsimp only
        by_cases hbe : bs.isEmpty
        · rw [if_pos hbe]
          exact ih (k + 1) _ h1
        · rw [if_neg hbe]
          rcases hstep : insertBranchList db.nextCoverageIssueId now failAt (k + 1) bs
              (insertCoverageIssueRow path sfId (i.line_number.getD 0)
                (i.is_excluded.getD false) now db) with ⟨ex, db2, k2⟩
          have hno2 : noOrphanBranches db2 := by
            have hh := insertBranchList_noOrphans db.nextCoverageIssueId now failAt bs
              (k + 1) _ h1 hp1
            rw [hstep] at hh
            exact hh
          cases ex with
          | ok u => exact ih k2 db2 hno2
          | error e => exact hno2

/-- The standalone-branch insert loop preserves the no-orphan invariant,
whether it completes or raises partway. -/
theorem insertStandaloneBranches_noOrphans (path : String) (sfId now : Nat)
    (failAt : Option Nat) (l : List CoverageInput) :
    ∀ (k : Nat) (db : DB), noOrphanBranches db →
      noOrphanBranches (insertStandaloneBranches path sfId now failAt k l db).2.1 := by
  induction l with
  | nil => intro k db h; simpa [insertStandaloneBranches] using h
  | cons b rest ih =>
    intro k db h
    rw [insertStandaloneBranches]
    by_cases hpar : b.parent_issue_id.isSome
    · rw [if_pos hpar]
      exact ih k db h
    · rw [if_neg hpar]
      by_cases hf : failAt = some k
      · rw [if_pos hf]; simpa using h
      · rw [if_neg hf]
        have h1 : noOrphanBranches (insertCoverageIssueRow path sfId
            (b.source_line.getD 0) false now db) :=
          noOrphans_insertIssue _ _ _ _ _ _ h
        have hp1 : ∃ j ∈ (insertCoverageIssueRow path sfId (b.source_line.getD 0)
            false now db).coverage_issues, j.id = db.nextCoverageIssueId :=
          parent_mem_insertIssue _ _ _ _ _ _
        by_cases hf2 : failAt = some (k + 1)
        · rw [if_pos hf2]; simpa using h1
        · rw [if_neg hf2]
          apply ih (k + 2)
          intro c hc
          simp only [insertCoverageBranchRow] at hc ⊢
          rcases List.mem_append.mp hc with hc | hc
          · obtain ⟨i, hi, hid⟩ := h1 c hc
            exact ⟨i, hi, hid⟩
          · rw [List.mem_singleton] at hc
            subst hc
            obtain ⟨i, hi, hid⟩ := hp1
            exact ⟨i, hi, hid⟩

/-- The cascading delete preserves the no-orphan invariant: a surviving
branch's parent is never among the deleted issues. -/
theorem deleteCoverageIssuesWhere_noOrphans (pred : CoverageIssueRow → Bool)
    (db : DB) (h : noOrphanBranches db) :
    noOrphanBranches (deleteCoverageIssuesWhere pred db) := by
  intro b hb
  simp only [deleteCoverageIssuesWhere] at hb ⊢
  rw [List.mem_filter] at hb
  obtain ⟨hbmem, hbkeep⟩ := hb
  obtain ⟨i, hi, hid⟩ := h b hbmem
  have hpredi : pred i = false := by
    cases hp : pred i with
    | false => rfl
    | true =>
      have : i.id ∈ (db.coverage_issues.filter pred).map (fun r => r.id) :=
        List.mem_map.mpr ⟨i, List.mem_filter.mpr ⟨hi, hp⟩, rfl⟩
      rw [hid] at this
      have : ((db.coverage_issues.filter pred).map (fun r => r.id)).contains
          b.coverage_issue_id = true := by
        simpa using this
      rw [this] at hbkeep
      simp at hbkeep
  exact ⟨i, List.mem_filter.mpr ⟨hi, by simp [hpredi]⟩, hid⟩

/-- The source-file upsert leaves the coverage tables untouched. -/
theorem upsertSourceFile_coverage (path : String) (now : Nat) (db : DB) :
    (upsertSourceFile path now db).2.coverage_issues = db.coverage_issues ∧
    (upsertSourceFile path now db).2.coverage_branches = db.coverage_branches := by
  unfold upsertSourceFile
  cases h : db.source_files.find? (fun r => r.file_path == path) <;>
    simp [insertSourceFileRow]

/-- C3. Deleting an existing coverage issue removes every branch that
references it, and a save_coverage_issues_to_db run — failure-free or
raising at any child INSERT — never leaves a coverage_branches row whose
coverage_issue_id references a missing coverage_issues row, provided the
starting state had none. -/
theorem coverage_cascade_integrity (issue_id : Nat) (dbA : DB)
    (hA : dbA.coverage_issues.any (fun r => r.id == issue_id) = true)
    (path : String) (issues : List CoverageInput) (now : Nat)
    (failAt : Option Nat) (dbB : DB) (hB : noOrphanBranches dbB) :
    (∀ b ∈ (delete_coverage_issue issue_id dbA).2.coverage_branches,
      b.coverage_issue_id ≠ issue_id) ∧
    noOrphanBranches (save_coverage_issues_to_db path issues now failAt dbB).2 := by
  constructor
  · intro b hb
    simp only [delete_coverage_issue, deleteCoverageIssuesWhere] at hb
    rw [List.mem_filter] at hb
    obtain ⟨hbmem, hbkeep⟩ := hb
    intro hEq
    rw [List.any_eq_true] at hA
    obtain ⟨i, hi, hip⟩ := hA
    have hii : i.id = issue_id := by simpa using hip
    have hmm : b.coverage_issue_id ∈
        (dbA.coverage_issues.filter (fun r => r.id == issue_id)).map (fun r => r.id) := by
      rw [hEq]
      exact List.mem_map.mpr ⟨i, List.mem_filter.mpr ⟨hi, hip⟩, hii⟩
    have hcont : ((dbA.coverage_issues.filter (fun r => r.id == issue_id)).map
        (fun r => r.id)).contains b.coverage_issue_id = true :=
      List.elem_iff.mpr hmm
    rw [hcont] at hbkeep
    simp at hbkeep
  · have h0 : noOrphanBranches (deleteCoverageIssuesWhere
        (fun r => r.file_path == path) (upsertSourceFile path now dbB).2) := by
      apply deleteCoverageIssuesWhere_noOrphans
      intro b hb
      rw [(upsertSourceFile_coverage path now dbB).2] at hb
      obtain ⟨i, hi, hid⟩ := hB b hb
      exact ⟨i, by rw [(upsertSourceFile_coverage path now dbB).1]; exact hi, hid⟩
    simp only [save_coverage_issues_to_db, get_cursor]
    split
    next u db2 k2 hline =>
      have hno2 : noOrphanBranches db2 := by
        have hh := insertLineIssues_noOrphans path (upsertSourceFile path now dbB).1 now
          failAt (line_issues issues) 0 _ h0
        rw [hline] at hh
        exact hh
      split
      next u2 db3 k3 hstand =>
        have hh := insertStandaloneBranches_noOrphans path
          (upsertSourceFile path now dbB).1 now failAt (branch_issues issues) k2 db2 hno2
        rw [hstand] at hh
        exact hh
      next e2 db3 k3 hstand =>
        have hh := insertStandaloneBranches_noOrphans path
          (upsertSourceFile path now dbB).1 now failAt (branch_issues issues) k2 db2 hno2
        rw [hstand] at hh
        exact hh
    next e db2 k2 hline =>
      have hh := insertLineIssues_noOrphans path (upsertSourceFile path now dbB).1 now
        failAt (line_issues issues) 0 _ h0
      rw [hline] at hh
      exact hh

/-- Witness for C3: deleting issue 1 of dbIssueWithBranch leaves no branch
referencing it, and a save run on the same state keeps the no-orphan
invariant. -/
theorem coverage_cascade_integrity_witness :
    (∀ b ∈ (delete_coverage_issue 1 dbIssueWithBranch).2.coverage_branches,
      b.coverage_issue_id ≠ 1) ∧
    noOrphanBranches
      (save_coverage_issues_to_db "src/m.py" [covInputLine] 0 none dbIssueWithBranch).2 :=
  coverage_cascade_integrity 1 dbIssueWithBranch (by decide) "src/m.py"
    [covInputLine] 0 none dbIssueWithBranch
    (by unfold noOrphanBranches; decide)

/-- Truthiness of a nested branches list: the empty list fails the guard. -/
theorem if_isEmpty_nil {α β : Type} (a b : α) :
    (if ([] : List β).isEmpty = true then a else b) = a := rfl

/-- Truthiness of a nested branches list: a non-empty list passes the guard. -/
theorem if_isEmpty_cons {α β : Type} (x : β) (l : List β) (a b : α) :
    (if (x :: l).isEmpty = true then a else b) = b := rfl

/-- A failure-free branch-insert loop appends exactly the specification
branch rows. -/
theorem insertBranchList_ok_run (parentId now : Nat) (bs : List CoverageInputBranch) :
    ∀ (k : Nat) (db : DB),
      insertBranchList parentId now none k bs db =
        (.ok (), { db with
          coverage_branches := db.coverage_branches ++
            specBranchRows parentId now bs db.nextCoverageBranchId,
          nextCoverageBranchId := db.nextCoverageBranchId + bs.length }, k + bs.length) := by
  induction bs with
  | nil => intro k db; simp [insertBranchList, specBranchRows]
  | cons b rest ih =>
    intro k db
    rw [insertBranchList, if_neg (by simp)]
    rw [ih (k + 1) _]
    simp only [insertCoverageBranchRow, specBranchRows, Prod.mk.injEq, DB.mk.injEq,
      List.append_assoc, List.singleton_append, List.length_cons, true_and, and_true]
    all_goals omega

/-- A failure-free line-issue loop appends exactly the specification rows of
specLineRows and advances the counters accordingly. -/
theorem insertLineIssues_ok_run (path : String) (sfId now : Nat)
    (l : List CoverageInput) :
    ∀ (k : Nat) (db : DB),
      insertLineIssues path sfId now none k l db =
        (.ok (), { db with
          coverage_issues := db.coverage_issues ++
            (specLineRows path sfId now l db.nextCoverageIssueId db.nextCoverageBranchId).1,
          coverage_branches := db.coverage_branches ++
            (specLineRows path sfId now l db.nextCoverageIssueId db.nextCoverageBranchId).2.1,
          nextCoverageIssueId :=
            (specLineRows path sfId now l db.nextCoverageIssueId db.nextCoverageBranchId).2.2.1,
          nextCoverageBranchId :=
            (specLineRows path sfId now l db.nextCoverageIssueId db.nextCoverageBranchId).2.2.2 },
          k + lineCost l) := by
  induction l with
  | nil =>
    intro k db
    simp [insertLineIssues, specLineRows, lineCost]
  | cons i rest ih =>
    intro k db
    rw [insertLineIssues, if_neg (by simp)]
    cases hbr : i.branches with
    | none =>
      dsimp only
      rw [ih (k + 1) (insertCoverageIssueRow path sfId
        (i.line_number.getD 0) (i.is_excluded.getD false) now db)]
      simp only [insertCoverageIssueRow, specLineRows, lineCost, hbr, Option.getD_none,
        specBranchRows, Prod.mk.injEq, DB.mk.injEq, List.append_assoc,
        List.singleton_append, List.length_nil, Nat.add_zero, List.nil_append,
        true_and, and_true]
      all_goals omega
    | some bs =>
      cases bs with
      | nil =>
        dsimp only
        rw [if_isEmpty_nil]
        dsimp only
        rw [ih (k + 1) (insertCoverageIssueRow path sfId
          (i.line_number.getD 0) (i.is_excluded.getD false) now db)]
        simp only [insertCoverageIssueRow, specLineRows, lineCost, hbr, Option.getD_some,
          specBranchRows, Prod.mk.injEq, DB.mk.injEq, List.append_assoc,
          List.singleton_append, List.length_nil, Nat.add_zero, List.nil_append,
          true_and, and_true]
        all_goals omega
      | cons b0 bs0 =>
        dsimp only
        rw [if_isEmpty_cons, insertBranchList_ok_run]
        dsimp only
        rw [ih (k + 1 + (b0 :: bs0).length)
          ({ insertCoverageIssueRow path sfId (i.line_number.getD 0)
              (i.is_excluded.getD false) now db with
             coverage_branches := (insertCoverageIssueRow path sfId (i.line_number.getD 0)
               (i.is_excluded.getD false) now db).coverage_branches ++
               specBranchRows db.nextCoverageIssueId now (b0 :: bs0)
                 (insertCoverageIssueRow path sfId (i.line_number.getD 0)
                   (i.is_excluded.getD false) now db).nextCoverageBranchId,
             nextCoverageBranchId := (insertCoverageIssueRow path sfId (i.line_number.getD 0)
               (i.is_excluded.getD false) now db).nextCoverageBranchId + (b0 :: bs0).length })]
        simp only [insertCoverageIssueRow, specLineRows, lineCost, hbr, Option.getD_some,
          Prod.mk.injEq, DB.mk.injEq, List.append_assoc, List.singleton_append,
          List.length_cons, List.nil_append, true_and, and_true]
        all_goals omega

/-- A failure-free standalone-branch loop appends exactly the specification
rows of specStandaloneRows and advances the counters accordingly. -/
theorem insertStandaloneBranches_ok_run (path : String) (sfId now : Nat)
    (l : List CoverageInput) :
    ∀ (k : Nat) (db : DB),
      insertStandaloneBranches path sfId now none k l db =
        (.ok (), { db with
          coverage_issues := db.coverage_issues ++
            (specStandaloneRows path sfId now l db.nextCoverageIssueId db.nextCoverageBranchId).1,
          coverage_branches := db.coverage_branches ++
            (specStandaloneRows path sfId now l db.nextCoverageIssueId db.nextCoverageBranchId).2.1,
          nextCoverageIssueId :=
            (specStandaloneRows path sfId now l db.nextCoverageIssueId db.nextCoverageBranchId).2.2.1,
          nextCoverageBranchId :=
            (specStandaloneRows path sfId now l db.nextCoverageIssueId db.nextCoverageBranchId).2.2.2 },
          k + standaloneCost l) := by
  induction l with
  | nil =>
    intro k db
    simp [insertStandaloneBranches, specStandaloneRows, standaloneCost]
  | cons b rest ih =>
    intro k db
    by_cases hpar : b.parent_issue_id.isSome
    · rw [insertStandaloneBranches, if_pos hpar, ih k db]
      simp only [specStandaloneRows, standaloneCost, hpar, eq_self_iff_true, if_true]
    · rw [insertStandaloneBranches, if_neg hpar, if_neg (by simp)]
      rw [if_neg (by simp)]
      dsimp only
      rw [ih (k + 2) (insertCoverageBranchRow db.nextCoverageIssueId
        (b.source_line.getD 0) (b.end_line.getD 0) (b.condition.getD "")
        (b.branch_type.getD "") now
        (insertCoverageIssueRow path sfId (b.source_line.getD 0) false now db))]
      simp only [insertCoverageBranchRow, insertCoverageIssueRow, specStandaloneRows,
        standaloneCost, Bool.not_eq_true, hpar, Bool.false_eq_true, if_false,
        Prod.mk.injEq, DB.mk.injEq, List.append_assoc, List.singleton_append,
        List.nil_append, true_and, and_true]
      all_goals omega

/-- C8. A failure-free save_coverage_issues_to_db run completes, and its
final coverage tables are the cascade-deleted old rows followed exactly by
the specification rows: one CoverageIssue row per line-level entry owning
one CoverageBranch row per nested branch, and one newly-created parent
CoverageIssue row owning exactly one CoverageBranch row per standalone
branch-level entry (those without a parent_issue_id key). -/
theorem save_coverage_issues_structure (path : String) (issues : List CoverageInput)
    (now : Nat) (db : DB) :
    (save_coverage_issues_to_db path issues now none db).1 = .ok () ∧
    (save_coverage_issues_to_db path issues now none db).2.coverage_issues =
      (deleteCoverageIssuesWhere (fun r => r.file_path == path)
          (upsertSourceFile path now db).2).coverage_issues
        ++ (specCoverageSaveRows path (upsertSourceFile path now db).1
              (upsertSourceFile path now db).2.nextCoverageIssueId
              (upsertSourceFile path now db).2.nextCoverageBranchId now issues).1 ∧
    (save_coverage_issues_to_db path issues now none db).2.coverage_branches =
      (deleteCoverageIssuesWhere (fun r => r.file_path == path)
          (upsertSourceFile path now db).2).coverage_branches
        ++ (specCoverageSaveRows path (upsertSourceFile path now db).1
              (upsertSourceFile path now db).2.nextCoverageIssueId
              (upsertSourceFile path now db).2.nextCoverageBranchId now issues).2 := by
  simp only [save_coverage_issues_to_db, get_cursor]
  rw [insertLineIssues_ok_run]
  dsimp only
  rw [insertStandaloneBranches_ok_run]
  dsimp only
  refine ⟨rfl, ?_, ?_⟩ <;>
    simp [specCoverageSaveRows, deleteCoverageIssuesWhere, List.append_assoc]

/-- Entries carrying a parent_issue_id key contribute nothing to the
standalone-branch loop: filtering them out first leaves the run unchanged. -/
theorem insertStandaloneBranches_skip_filter (path : String) (sfId now : Nat)
    (failAt : Option Nat) (l : List CoverageInput) :
    ∀ (k : Nat) (db : DB),
      insertStandaloneBranches path sfId now failAt k
        (l.filter fun b => !b.parent_issue_id.isSome) db =
      insertStandaloneBranches path sfId now failAt k l db := by
  induction l with
  | nil => intro k db; rfl
  | cons b rest ih =>
    intro k db
    by_cases hpar : b.parent_issue_id.isSome
    · rw [List.filter_cons]
      simp only [hpar, Bool.not_true, Bool.false_eq_true, if_false]
      rw [show insertStandaloneBranches path sfId now failAt k (b :: rest) db =
          insertStandaloneBranches path sfId now failAt k rest db from by
        rw [insertStandaloneBranches, if_pos hpar]]
      exact ih k db
    · rw [List.filter_cons]
      simp only [hpar, Bool.not_false, if_true]
      conv_lhs => rw [insertStandaloneBranches]
      conv_rhs => rw [insertStandaloneBranches]
      rw [if_neg hpar, if_neg hpar]
      by_cases hf : failAt = some k
      · rw [if_pos hf, if_pos hf]
      · rw [if_neg hf, if_neg hf]
        dsimp only
        by_cases hf2 : failAt = some (k + 1)
        · rw [if_pos hf2, if_pos hf2]
        · rw [if_neg hf2, if_neg hf2]
          exact ih (k + 2) _

/-- C10. Every branch-level entry that carries a parent_issue_id key is
silently skipped by save_coverage_issues_to_db: the run on any list equals
the run on the list with those entries removed, and in particular a single
such entry behaves exactly like the empty list — no CoverageIssue or
CoverageBranch row is created for it. -/
theorem save_coverage_issues_skips_parented_branches (path : String)
    (issues : List CoverageInput) (now : Nat) (failAt : Option Nat) (db : DB) :
    save_coverage_issues_to_db path issues now failAt db =
      save_coverage_issues_to_db path
        (issues.filter fun i =>
          !(i.type.getD "" == "CoverageBranch" && i.parent_issue_id.isSome))
        now failAt db ∧
    ∀ e : CoverageInput, (e.type.getD "" == "CoverageBranch") = true →
      e.parent_issue_id.isSome = true →
      save_coverage_issues_to_db path [e] now failAt db =
        save_coverage_issues_to_db path [] now failAt db := by
  have key : ∀ l : List CoverageInput,
      save_coverage_issues_to_db path
        (l.filter fun i =>
          !(i.type.getD "" == "CoverageBranch" && i.parent_issue_id.isSome))
        now failAt db
      = save_coverage_issues_to_db path l now failAt db := by
    intro l
    have hline : line_issues (l.filter fun i =>
        !(i.type.getD "" == "CoverageBranch" && i.parent_issue_id.isSome))
        = line_issues l := by
      unfold line_issues
      rw [List.filter_filter]
      refine List.filter_congr ?_
      intro a _
      cases h : (a.type.getD "" == "CoverageIssue") with
      | false => simp [h]
      | true =>
        have h2 : a.type.getD "" = "CoverageIssue" := by simpa using h
        simp [h, h2]
    have hbranch : branch_issues (l.filter fun i =>
        !(i.type.getD "" == "CoverageBranch" && i.parent_issue_id.isSome))
        = (branch_issues l).filter fun b => !b.parent_issue_id.isSome := by
      unfold branch_issues
      rw [List.filter_filter, List.filter_filter]
      refine List.filter_congr ?_
      intro a _
      cases h : (a.type.getD "" == "CoverageBranch") with
      | false => simp [h]
      | true => simp [h]
    simp only [save_coverage_issues_to_db, get_cursor, hline, hbranch]
    rcases insertLineIssues path (upsertSourceFile path now db).1 now failAt 0
        (line_issues l)
        (deleteCoverageIssuesWhere (fun r => r.file_path == path)
          (upsertSourceFile path now db).2) with ⟨ex1, db2, k2⟩
    cases ex1 with
    | error e => rfl
    | ok u =>
      dsimp only
      rw [insertStandaloneBranches_skip_filter]
  refine ⟨(key issues).symm, fun e he hp => ?_⟩
  have hdrop : [e].filter (fun i =>
      !(i.type.getD "" == "CoverageBranch" && i.parent_issue_id.isSome)) = [] := by
    simp [he, hp]
    exact ⟨by simpa using he, by intro hn; rw [hn] at hp; simp at hp⟩
  rw [← key [e], hdrop]

/-- Witness for C10: a single parented branch entry behaves exactly like the
empty list on the empty database. -/
theorem save_coverage_issues_skips_parented_branches_witness :
    (save_coverage_issues_to_db "src/m.py" [covInputBranchParented] 0 none emptyDB =
      save_coverage_issues_to_db "src/m.py"
        ([covInputBranchParented].filter fun i =>
          !(i.type.getD "" == "CoverageBranch" && i.parent_issue_id.isSome))
        0 none emptyDB) ∧
    save_coverage_issues_to_db "src/m.py" [covInputBranchParented] 0 none emptyDB =
      save_coverage_issues_to_db "src/m.py" [] 0 none emptyDB :=
  ⟨(save_coverage_issues_skips_parented_branches "src/m.py" [covInputBranchParented]
      0 none emptyDB).1,
   (save_coverage_issues_skips_parented_branches "src/m.py" [covInputBranchParented]
      0 none emptyDB).2 covInputBranchParented (by decide) (by decide)⟩
